import Mathlib

/-
  Verification of the zen-note-server Collaboration Session Manager.

  Shallow embedding of src/services/collaboration.ts (class CollaborationManager),
  the WebSocket route of src/server.ts, and the collaboration config of src/config.
  The durable store (Redis) is modelled as association lists with per-key expiry
  deadlines (the EX option of redisClient.set / setBuffer); the in-memory
  registry (Map<string, CollaborationSession>) is an association list as well.
  The Yjs replica is an external npm dependency whose source is not part of this
  repository; it is modelled from the spec as an opaque mergeable document
  (a grow-only set of operation identifiers merged by union).
-/

namespace ZenNote

/-! ### Association-list maps (JS Map and the Redis keyspace) -/

/-- Lookup in an association list, returning the first binding of the key. -/
def alget {κ α : Type} [DecidableEq κ] : List (κ × α) → κ → Option α
  | [], _ => none
  | (k, v) :: t, k2 => if k = k2 then some v else alget t k2

/-- Remove every binding of a key from an association list. -/
def alremove {κ α : Type} [DecidableEq κ] (l : List (κ × α)) (k : κ) : List (κ × α) :=
  l.filter (fun e => decide (e.1 ≠ k))

/-- Overwrite the binding of a key (Map.set / redis SET semantics). -/
def alset {κ α : Type} [DecidableEq κ] (l : List (κ × α)) (k : κ) (v : α) : List (κ × α) :=
  (k, v) :: alremove l k

/-! ### Configuration (src/config.ts, collaboration section) -/

/-- collaboration section of the config object: sessionTTL is in seconds,
cleanupInterval in milliseconds. -/
structure CollaborationConfig where
  sessionTTL : Nat
  maxParticipants : Nat
  cleanupInterval : Nat
deriving DecidableEq

/-- Defaults from src/config.ts: sessionTTL 1200 s, maxParticipants 10,
cleanupInterval 60000 ms. -/
def defaultConfig : CollaborationConfig :=
  { sessionTTL := 1200, maxParticipants := 10, cleanupInterval := 60000 }

/-! ### The replica

Modelled from the spec: the CRDT merge engine (yjs) is consumed as an opaque
capability — apply an update, encode current state, notify on local change —
and its source is not part of this repository.  A document is a grow-only set
of operation identifiers; applying an update merges (unions) its operations
into the document; the update notification fires exactly when the merge
changed the document, carrying the delta that was new. -/

/-- A set of CRDT operations (the decoded content of an update or of a document). -/
abbrev OpSet := Finset Nat

/-- Modelled from the spec: the opaque mergeable document (Y.Doc content). -/
abbrev YDoc := OpSet

/-- Modelled from the spec: an encoded update blob; decoding may fail, in which
case Y.applyUpdate throws (a MergeError in the spec taxonomy). -/
inductive YUpdate where
  | valid (ops : OpSet)
  | corrupt
deriving DecidableEq

/-- Modelled from the spec: Y.applyUpdate merges the operations of an update
into the document (commutative, associative, idempotent merge). -/
def applyOps (d : YDoc) (ops : OpSet) : YDoc := d ∪ ops

/-- Modelled from the spec: Y.encodeStateAsUpdate encodes the full current
document state as one update. -/
def encodeStateAsUpdate (d : YDoc) : OpSet := d

/-! ### Sockets, metadata, presence, store -/

/-- ws WebSocket.OPEN readyState constant. -/
def WS_OPEN : Nat := 1

/-- A WebSocket: sid models object identity (unique per socket object),
readyState is the transport state at the modelled instant. -/
structure Socket where
  sid : Nat
  readyState : Nat
deriving DecidableEq

/-- SessionMetadata as stored under collab:session:<sessionId>. -/
structure SessionMetadata where
  noteId : String
  hostId : String
  participants : List String
  createdAt : Nat
  expiresAt : Nat
deriving DecidableEq

/-- Participant presence value stored under collab:presence:<sessionId>:<participantId>. -/
structure Presence where
  name : String
  color : String
  lastSeen : Nat
deriving DecidableEq

/-- A durable store entry: the value plus the instant (ms) at which the
store-level TTL set via the EX option lapses. -/
structure Entry (α : Type) where
  value : α
  expireAt : Nat
deriving DecidableEq

/-- The durable key namespace: collab:session:<sid> metadata keys,
collab:doc:<sid> binary snapshot keys, collab:presence:<sid>:<pid> keys. -/
structure Store where
  sessionMeta : List (String × Entry SessionMetadata)
  docSnapshot : List (String × Entry OpSet)
  presence : List ((String × String) × Entry Presence)
deriving DecidableEq

/-- redisClient.get on a metadata key: absent, or lazily expired, yields nil. -/
def Store.getMeta (st : Store) (now : Nat) (sessionId : String) : Option SessionMetadata :=
  match alget st.sessionMeta sessionId with
  | some e => if e.expireAt ≤ now then none else some e.value
  | none => none

/-- redisClient.getBuffer on a snapshot key, with lazy store-level expiry. -/
def Store.getDoc (st : Store) (now : Nat) (sessionId : String) : Option OpSet :=
  match alget st.docSnapshot sessionId with
  | some e => if e.expireAt ≤ now then none else some e.value
  | none => none

/-! ### In-memory session state (interface CollaborationSession) -/

/-- CollaborationSession: ydoc, connections (Set of sockets), lastActivity (ms),
participants (Set of ids).  updateHandlers records the sockets for which
setupYjsSync registered a listener on the ydoc update event; the code never
removes those listeners, so the list only grows. -/
structure CollaborationSession where
  ydoc : YDoc
  connections : List Socket
  lastActivity : Nat
  participants : List String
  updateHandlers : List Nat
deriving DecidableEq

/-- The whole observable state: the process-local registry plus the durable store. -/
structure ManagerState where
  sessions : List (String × CollaborationSession)
  store : Store
deriving DecidableEq

/-! ### Observable effects (socket operations, logs, replica lifecycle) -/

/-- Outgoing protocol messages and incoming parsed messages. -/
inductive Message where
  | syncStep1 (update : Option YUpdate)
  | syncStep2 (update : Option YUpdate)
  | syncUpdate (update : Option YUpdate)
  | awareness (payload : String)
  | unknown (msgType : String)
deriving DecidableEq

/-- A raw WebSocket frame: either JSON.parse succeeds, or it throws. -/
inductive Frame where
  | malformed
  | parsed (msg : Message)
deriving DecidableEq

/-- Externally visible actions performed by the manager. -/
inductive Effect where
  | storeRead (key : String)
  | closeSock (sid : Nat) (code : Nat) (reason : String)
  | send (sid : Nat) (msg : Message)
  | constructReplica (sessionId : String)
  | destroyReplica (sessionId : String)
  | logError (context : String)
  | logWarn (context : String)
deriving DecidableEq

/-- Key of the durable metadata record for a session. -/
def sessionKey (sessionId : String) : String := "collab:session:" ++ sessionId

/-- Key of the durable document snapshot for a session. -/
def docKey (sessionId : String) : String := "collab:doc:" ++ sessionId

/-- sendMessage: serialize and send only when the socket is in the open state. -/
def sendMessage (ws : Socket) (msg : Message) : List Effect :=
  if ws.readyState = WS_OPEN then [Effect.send ws.sid msg] else []

/-- generateParticipantColor palette. -/
def participantColors : List String :=
  ["#FF6B6B", "#4ECDC4", "#45B7D1", "#96CEB4", "#FECA57",
   "#FF9FF3", "#54A0FF", "#5F27CD", "#00D2D3", "#FF9F43"]

/-- Coerce an integer to JS int32 range (the effect of the & operator). -/
def toInt32 (x : Int) : Int := (x + 2 ^ 31) % 2 ^ 32 - 2 ^ 31

/-- generateParticipantColor: 32-bit string hash, then index into the palette. -/
def generateParticipantColor (participantId : String) : String :=
  let hash := participantId.toList.foldl
    (fun a c => toInt32 (toInt32 (a * 32) - a + Int.ofNat c.toNat)) 0
  (participantColors.getD (hash.natAbs % participantColors.length) "#FF6B6B")

/-! ### The update notification (ydoc update event)

createSession registers one persistence listener on the ydoc; setupYjsSync
registers one broadcast listener per attached socket.  When an applied update
actually changes the document, yjs fires the update event once with the delta
as payload, and every registered listener runs: the persistence listener
overwrites the snapshot key with the encoded payload (refreshing its TTL), and
each broadcast listener relays a sync-update to every open connection of the
session other than the socket it was registered for. -/

/-- Effects and store change of one firing of the ydoc update event. -/
def fireUpdateEvent (cfg : CollaborationConfig) (st : ManagerState) (sessionId : String)
    (delta : OpSet) (now : Nat) : ManagerState × List Effect :=
  let store2 := { st.store with
    docSnapshot := alset st.store.docSnapshot sessionId
      { value := delta, expireAt := now + cfg.sessionTTL * 1000 } }
  let bcasts :=
    match alget st.sessions sessionId with
    | none => []
    | some s =>
        (s.updateHandlers.map (fun h =>
          (s.connections.filter (fun c => c.sid != h && c.readyState == WS_OPEN)).map
            (fun c => Effect.send c.sid
              (Message.syncUpdate (some (YUpdate.valid delta)))))).flatten
  ({ st with store := store2 }, bcasts)

/-- The shared body of the sync-step-1 / sync-step-2 / sync-update cases:
Y.applyUpdate the carried update on the session document, letting the update
event fire when the document changed.  The Bool records whether Y.applyUpdate
threw (the raw bytes did not decode). -/
def applyCarriedUpdate (cfg : CollaborationConfig) (st : ManagerState) (sessionId : String)
    (u : YUpdate) (now : Nat) : ManagerState × List Effect × Bool :=
  match u with
  | YUpdate.corrupt => (st, ([], true))
  | YUpdate.valid ops =>
      match alget st.sessions sessionId with
      | none => (st, ([], false))
      | some s =>
          let delta := ops \ s.ydoc
          let st2 := { st with
            sessions := alset st.sessions sessionId { s with ydoc := applyOps s.ydoc ops } }
          if delta = ∅ then (st2, ([], false))
          else
            let r := fireUpdateEvent cfg st2 sessionId delta now
            (r.1, (r.2, false))

/-- handleYjsMessage: dispatch on the parsed message type.  The Bool result
records whether Y.applyUpdate threw (caught by the message listener). -/
def handleYjsMessage (cfg : CollaborationConfig) (st : ManagerState) (ws : Socket)
    (sessionId : String) (msg : Message) (now : Nat) :
    ManagerState × List Effect × Bool :=
  match msg with
  | Message.syncStep1 (some u) => applyCarriedUpdate cfg st sessionId u now
  | Message.syncStep2 (some u) => applyCarriedUpdate cfg st sessionId u now
  | Message.syncUpdate (some u) => applyCarriedUpdate cfg st sessionId u now
  | Message.syncStep1 none => (st, ([], false))
  | Message.syncStep2 none => (st, ([], false))
  | Message.syncUpdate none => (st, ([], false))
  | Message.awareness payload =>
      match alget st.sessions sessionId with
      | none => (st, ([], false))
      | some s =>
          (st,
           ((s.connections.filter (fun c => c.sid != ws.sid && c.readyState == WS_OPEN)).map
              (fun c => Effect.send c.sid (Message.awareness payload)), false))
  | Message.unknown _ => (st, ([Effect.logWarn "Unknown message type"], false))

/-- The message listener installed by setupYjsSync: JSON.parse and
handleYjsMessage inside one try/catch that logs and swallows any error. -/
def onSocketMessage (cfg : CollaborationConfig) (st : ManagerState) (ws : Socket)
    (sessionId : String) (frame : Frame) (now : Nat) : ManagerState × List Effect :=
  match frame with
  | Frame.malformed => (st, [Effect.logError "Failed to parse WebSocket message"])
  | Frame.parsed msg =>
      let r := handleYjsMessage cfg st ws sessionId msg now
      if r.2.2 then (r.1, r.2.1 ++ [Effect.logError "Failed to parse WebSocket message"])
      else (r.1, r.2.1)

/-! ### Session creation, connection handling -/

/-- createSession: construct a fresh Y.Doc, restore state from the durable
snapshot when present, register the persistence listener, insert into the
registry.  The metadata argument is accepted but unused, as in the source. -/
def createSession (_cfg : CollaborationConfig) (st : ManagerState) (sessionId : String)
    (_metadata : SessionMetadata) (now : Nat) :
    ManagerState × CollaborationSession × List Effect :=
  let ydoc : YDoc :=
    match st.store.getDoc now sessionId with
    | some stored => applyOps (∅ : YDoc) stored
    | none => (∅ : YDoc)
  let session : CollaborationSession :=
    { ydoc := ydoc, connections := [], lastActivity := now,
      participants := [], updateHandlers := [] }
  ({ st with sessions := alset st.sessions sessionId session }, session,
   [Effect.storeRead (docKey sessionId), Effect.constructReplica sessionId])

/-- cleanupSession: close open sockets with reason Session ended, destroy the
replica, drop the registry entry, then delete the durable metadata key, the
snapshot key, and every presence key of the session. -/
def cleanupSession (st : ManagerState) (sessionId : String) : ManagerState × List Effect :=
  let inMem : List (String × CollaborationSession) × List Effect :=
    match alget st.sessions sessionId with
    | some s =>
        (alremove st.sessions sessionId,
         ((s.connections.filter (fun c => c.readyState == WS_OPEN)).map
            (fun c => Effect.closeSock c.sid 1000 "Session ended"))
           ++ [Effect.destroyReplica sessionId])
    | none => (st.sessions, [])
  let store2 : Store :=
    { sessionMeta := alremove st.store.sessionMeta sessionId,
      docSnapshot := alremove st.store.docSnapshot sessionId,
      presence := st.store.presence.filter (fun e => e.1.1 != sessionId) }
  ({ sessions := inMem.1, store := store2 }, inMem.2)

/-- handleConnection: validate metadata, get-or-create the session, enforce the
participant cap, attach, send the initial full state, write presence. -/
def handleConnection (cfg : CollaborationConfig) (st : ManagerState) (ws : Socket)
    (sessionId participantId : String) (now : Nat) : ManagerState × List Effect :=
  let readEff := Effect.storeRead (sessionKey sessionId)
  match st.store.getMeta now sessionId with
  | none => (st, [readEff, Effect.closeSock ws.sid 1008 "Session not found or expired"])
  | some metadata =>
      if metadata.expiresAt < now then
        let r := cleanupSession st sessionId
        (r.1, readEff :: Effect.closeSock ws.sid 1008 "Session expired" :: r.2)
      else
        let goc :=
          match alget st.sessions sessionId with
          | some s => (st, s, ([] : List Effect))
          | none => createSession cfg st sessionId metadata now
        let st1 := goc.1
        let session := goc.2.1
        if cfg.maxParticipants ≤ session.participants.length then
          (st1, readEff :: goc.2.2 ++ [Effect.closeSock ws.sid 1008 "Session full"])
        else
          let conns :=
            if session.connections.any (fun c => c.sid == ws.sid) then session.connections
            else session.connections ++ [ws]
          let parts :=
            if participantId ∈ session.participants then session.participants
            else session.participants ++ [participantId]
          let session2 : CollaborationSession :=
            { session with
              connections := conns, participants := parts,
              lastActivity := now,
              updateHandlers := session.updateHandlers ++ [ws.sid] }
          let st2 := { st1 with sessions := alset st1.sessions sessionId session2 }
          let pres : Presence :=
            { name := participantId, color := generateParticipantColor participantId,
              lastSeen := now }
          let st3 := { st2 with
            store := { st2.store with
              presence := alset st2.store.presence (sessionId, participantId)
                { value := pres, expireAt := now + cfg.sessionTTL * 1000 } } }
          (st3, readEff :: goc.2.2
            ++ sendMessage ws (Message.syncStep1 (some (YUpdate.valid
                 (encodeStateAsUpdate session.ydoc)))))

/-- The WebSocket route of src/server.ts: reject a sessionId that fails the
UUID v4 format test before any store access, else hand to handleConnection. -/
def isHexLower (c : Char) : Bool :=
  (Char.ofNat 48 ≤ c && c ≤ Char.ofNat 57) || (Char.ofNat 97 ≤ c && c ≤ Char.ofNat 102)

/-- The UUID v4 regex of src/server.ts applied to a string: 36 characters,
dashes at positions 8, 13, 18, 23, version digit 4 at position 14, variant in
89ab at position 19, lowercase hex elsewhere. -/
def uuidV4Test (s : String) : Bool :=
  let cs := s.toList
  cs.length == 36 &&
  (List.range 36).all (fun i =>
    let c := cs.getD i (Char.ofNat 32)
    if i == 8 || i == 13 || i == 18 || i == 23 then c == Char.ofNat 45
    else if i == 14 then c == Char.ofNat 52
    else if i == 19 then
      c == Char.ofNat 56 || c == Char.ofNat 57 || c == Char.ofNat 97 || c == Char.ofNat 98
    else isHexLower c)

/-- The WebSocket route handler for /collab/:sessionId. -/
def wsRoute (cfg : CollaborationConfig) (st : ManagerState) (ws : Socket)
    (sessionId participantId : String) (now : Nat) : ManagerState × List Effect :=
  if uuidV4Test sessionId then handleConnection cfg st ws sessionId participantId now
  else (st, [Effect.closeSock ws.sid 1008 "Invalid session ID format"])

/-! ### Disconnection, grace timer, sweeper -/

/-- The grace period after the last disconnect, in milliseconds. -/
def gracePeriodMs : Nat := 30000

/-- handleDisconnection: drop the socket and the participant, delete the
presence key; when the connection set became empty, schedule the grace timer
(the returned Option carries the scheduled delay). -/
def handleDisconnection (st : ManagerState) (ws : Socket)
    (sessionId participantId : String) : ManagerState × List Effect × Option Nat :=
  match alget st.sessions sessionId with
  | none => (st, [], none)
  | some s =>
      let s2 := { s with
        connections := s.connections.filter (fun c => c.sid != ws.sid),
        participants := s.participants.filter (fun p => p != participantId) }
      let st2 := { st with
        sessions := alset st.sessions sessionId s2,
        store := { st.store with
          presence := alremove st.store.presence (sessionId, participantId) } }
      (st2, [], if s2.connections.isEmpty then some gracePeriodMs else none)

/-- The grace timer callback: if the connection set of the session is still
empty when the timer fires, run cleanupSession.  While the entry stays
registered it is the very object the timer closure captured, so the registry
lookup coincides with the captured reference. -/
def graceTimerFire (st : ManagerState) (sessionId : String) : ManagerState × List Effect :=
  match alget st.sessions sessionId with
  | some s => if s.connections.isEmpty then cleanupSession st sessionId else (st, [])
  | none => (st, [])

/-- One iteration of the cleanup loops: clean a session, accumulate effects. -/
def cleanupStep (acc : ManagerState × List Effect) (sid : String) :
    ManagerState × List Effect :=
  let r := cleanupSession acc.1 sid
  (r.1, acc.2 ++ r.2)

/-- Clean up each listed session in order (the for loops of
performPeriodicCleanup and shutdown). -/
def cleanupMany (st : ManagerState) (ids : List String) : ManagerState × List Effect :=
  ids.foldl cleanupStep (st, [])

/-- The ids collected by the sweep: sessions with
now - lastActivity > sessionTTL * 1000. -/
def idleSessionIds (cfg : CollaborationConfig) (st : ManagerState) (now : Nat) :
    List String :=
  (st.sessions.filter
    (fun e => decide (cfg.sessionTTL * 1000 < now - e.2.lastActivity))).map Prod.fst

/-- performPeriodicCleanup: collect the sessions idle beyond sessionTTL,
then clean each up. -/
def performPeriodicCleanup (cfg : CollaborationConfig) (st : ManagerState) (now : Nat) :
    ManagerState × List Effect :=
  cleanupMany st (idleSessionIds cfg st now)

/-- shutdown: clean up every registered session. -/
def shutdownManager (st : ManagerState) : ManagerState × List Effect :=
  cleanupMany st (st.sessions.map Prod.fst)

/-! ### Control-plane routes touching the store (src/routes/collaboration.ts) -/

/-- POST /api/collab/start: write fresh SessionMetadata with TTL. -/
def startSessionRoute (cfg : CollaborationConfig) (st : ManagerState) (sessionId : String)
    (noteId hostId : String) (now : Nat) : ManagerState :=
  let meta : SessionMetadata :=
    { noteId := noteId, hostId := hostId, participants := [],
      createdAt := now, expiresAt := now + cfg.sessionTTL * 1000 }
  { st with store := { st.store with
      sessionMeta := alset st.store.sessionMeta sessionId
        { value := meta, expireAt := now + cfg.sessionTTL * 1000 } } }

/-- DELETE /api/collab/end: delete metadata, snapshot, and presence keys. -/
def endSessionRoute (st : ManagerState) (sessionId : String) : ManagerState :=
  { st with store :=
    { sessionMeta := alremove st.store.sessionMeta sessionId,
      docSnapshot := alremove st.store.docSnapshot sessionId,
      presence := st.store.presence.filter (fun e => e.1.1 != sessionId) } }

/-! ### Event system and reachability -/

/-- The externally triggered events that mutate manager or store state. -/
inductive Event where
  | accept (ws : Socket) (sessionId participantId : String) (now : Nat)
  | message (ws : Socket) (sessionId : String) (frame : Frame) (now : Nat)
  | disconnect (ws : Socket) (sessionId participantId : String)
  | graceFire (sessionId : String)
  | sweep (now : Nat)
  | startSession (sessionId noteId hostId : String) (now : Nat)
  | endSession (sessionId : String)
  | shutdown

/-- State transition of one event. -/
def applyEvent (cfg : CollaborationConfig) (st : ManagerState) : Event → ManagerState
  | Event.accept ws sid pid now => (wsRoute cfg st ws sid pid now).1
  | Event.message ws sid fr now => (onSocketMessage cfg st ws sid fr now).1
  | Event.disconnect ws sid pid => (handleDisconnection st ws sid pid).1
  | Event.graceFire sid => (graceTimerFire st sid).1
  | Event.sweep now => (performPeriodicCleanup cfg st now).1
  | Event.startSession sid nid hid now => startSessionRoute cfg st sid nid hid now
  | Event.endSession sid => endSessionRoute st sid
  | Event.shutdown => (shutdownManager st).1

/-- States reachable from process start (empty registry, arbitrary store). -/
inductive Reachable (cfg : CollaborationConfig) : ManagerState → Prop where
  | init (store : Store) : Reachable cfg { sessions := [], store := store }
  | step {st : ManagerState} (e : Event) :
      Reachable cfg st → Reachable cfg (applyEvent cfg st e)

/-! ### Projections used by the theorems -/

/-- The document of a registered session, if any. -/
def docOf (st : ManagerState) (sessionId : String) : Option YDoc :=
  (alget st.sessions sessionId).map CollaborationSession.ydoc

/-- The connection set of a registered session, if any. -/
def connsOf (st : ManagerState) (sessionId : String) : Option (List Socket) :=
  (alget st.sessions sessionId).map CollaborationSession.connections

/-- The participant set of a registered session, if any. -/
def partsOf (st : ManagerState) (sessionId : String) : Option (List String) :=
  (alget st.sessions sessionId).map CollaborationSession.participants

/-- The lastActivity stamp of a registered session, if any. -/
def activityOf (st : ManagerState) (sessionId : String) : Option Nat :=
  (alget st.sessions sessionId).map CollaborationSession.lastActivity

/-- Number of sync-update messages addressed to a given socket in an effect list. -/
def countSyncTo (effs : List Effect) (sid : Nat) : Nat :=
  (effs.filter (fun e =>
    match e with
    | Effect.send t (Message.syncUpdate _) => t == sid
    | _ => false)).length

/-- The registry keys are pairwise distinct (a JS Map cannot bind a key twice;
association lists reached through alset and filtering keep this shape). -/
def KeysNodup (st : ManagerState) : Prop := (st.sessions.map Prod.fst).Nodup

/-- Every registered session respects the configured participant cap. -/
def ParticipantCapOK (cfg : CollaborationConfig) (st : ManagerState) : Prop :=
  ∀ e ∈ st.sessions, e.2.participants.length ≤ cfg.maxParticipants

/-- Fold a list of incoming frames (socket, session id, frame, arrival time)
through the message listener, keeping only the state. -/
def applyMessageTrace (cfg : CollaborationConfig) (st : ManagerState)
    (trace : List (Socket × String × Frame × Nat)) : ManagerState :=
  trace.foldl
    (fun acc e => (onSocketMessage cfg acc e.1 e.2.1 e.2.2.1 e.2.2.2).1) st

/-- Fold a list of valid sync-update messages for one session through the
message listener, keeping only the state. -/
def relayUpdates (cfg : CollaborationConfig) (st : ManagerState) (sessionId : String)
    (now : Nat) (l : List (Socket × OpSet)) : ManagerState :=
  l.foldl
    (fun acc e => (onSocketMessage cfg acc e.1 sessionId
      (Frame.parsed (Message.syncUpdate (some (YUpdate.valid e.2)))) now).1) st

/-! ### The first-connection race (claim about create-once semantics)

handleConnection runs `this.sessions.get(sessionId)` and, when the lookup
misses, calls createSession, which constructs `new Y.Doc()`, then suspends on
`await redisClient.getBuffer(...)`, and only after resuming inserts the entry
with `this.sessions.set(...)`.  Two connections for the same sessionId racing
through their first access therefore interleave two atomic segments each:
  segment one — registry check and, on a miss, replica construction, ending
  at the await of the snapshot read;
  segment two — registry insertion, after the await resumes.
The model below is this control flow for two tasks over one sessionId.
Replica identities are numbered in construction order. -/

/-- Where a first-connection task stands. -/
inductive TaskPhase where
  | ready
  | awaitingSnapshot (docId : Nat)
  | done (docId : Nat)
deriving DecidableEq

/-- State of the two racing first connections for one sessionId. -/
structure RaceState where
  registry : Option Nat
  constructed : Nat
  taskA : TaskPhase
  taskB : TaskPhase
deriving DecidableEq

/-- Initial race state: empty registry, nothing constructed. -/
def raceInit : RaceState :=
  { registry := none, constructed := 0, taskA := TaskPhase.ready, taskB := TaskPhase.ready }

/-- Run one atomic segment of one task (true selects task A). -/
def raceStep (st : RaceState) (who : Bool) : RaceState :=
  let t := if who then st.taskA else st.taskB
  let put := fun (st2 : RaceState) (ph : TaskPhase) =>
    if who then { st2 with taskA := ph } else { st2 with taskB := ph }
  match t with
  | TaskPhase.ready =>
      match st.registry with
      | some d => put st (TaskPhase.done d)
      | none =>
          put { st with constructed := st.constructed + 1 }
            (TaskPhase.awaitingSnapshot st.constructed)
  | TaskPhase.awaitingSnapshot d =>
      put { st with registry := some d } (TaskPhase.done d)
  | TaskPhase.done _ => st

/-- Run a whole schedule of segments. -/
def runRace (sched : List Bool) : RaceState := sched.foldl raceStep raceInit

/-! ### Concrete states for counterexamples and witnesses -/

/-- A well-formed UUID v4 session id. -/
def demoSid : String := "aaaaaaaa-aaaa-4aaa-8aaa-aaaaaaaaaaaa"

/-- A second well-formed UUID v4 session id. -/
def demoSid2 : String := "bbbbbbbb-bbbb-4bbb-9bbb-bbbbbbbbbbbb"

/-- Metadata for the demo session, expiring far in the future. -/
def demoMeta : SessionMetadata :=
  { noteId := "abc", hostId := "h", participants := [], createdAt := 0,
    expiresAt := 1000000000 }

/-- Store holding only the demo metadata, key TTL far in the future. -/
def demoStore : Store :=
  { sessionMeta := [(demoSid, { value := demoMeta, expireAt := 1000000000 })],
    docSnapshot := [], presence := [] }

/-- Manager state at process start with the demo metadata present. -/
def demoS0 : ManagerState := { sessions := [], store := demoStore }

/-- Three open sockets. -/
def sockA : Socket := { sid := 0, readyState := 1 }

/-- Second open socket. -/
def sockB : Socket := { sid := 1, readyState := 1 }

/-- Third open socket. -/
def sockC : Socket := { sid := 2, readyState := 1 }

/-- Demo state after participant pA connected on sockA. -/
def demoS1 : ManagerState := (wsRoute defaultConfig demoS0 sockA demoSid "pA" 1).1

/-- Demo state after pB also connected on sockB. -/
def demoS2 : ManagerState := (wsRoute defaultConfig demoS1 sockB demoSid "pB" 2).1

/-- Demo state after pC also connected on sockC. -/
def demoS3 : ManagerState := (wsRoute defaultConfig demoS2 sockC demoSid "pC" 3).1

/-- A sync-update frame carrying the valid update with the given operations. -/
def syncUpdateFrame (ops : OpSet) : Frame :=
  Frame.parsed (Message.syncUpdate (some (YUpdate.valid ops)))

/-- Demo state after sockA relayed the update containing operation 1. -/
def demoT2 : ManagerState :=
  (onSocketMessage defaultConfig demoS1 sockA demoSid (syncUpdateFrame {1}) 2).1

/-- Demo state after sockA then relayed the update containing operation 2. -/
def demoT3 : ManagerState :=
  (onSocketMessage defaultConfig demoT2 sockA demoSid (syncUpdateFrame {2}) 3).1

/-- Demo state after the sole participant pA disconnected. -/
def demoD : ManagerState := (handleDisconnection demoT3 sockA demoSid "pA").1

/-- Demo state after the grace timer fired on the drained session. -/
def demoG : ManagerState := (graceTimerFire demoD demoSid).1

/-- The registered session of demoS1, written out. -/
def demoS1Session : CollaborationSession :=
  { ydoc := ∅, connections := [sockA], lastActivity := 1,
    participants := ["pA"], updateHandlers := [0] }

/-- The registered session of demoT3, written out. -/
def demoT3Session : CollaborationSession :=
  { ydoc := {1, 2}, connections := [sockA], lastActivity := 1,
    participants := ["pA"], updateHandlers := [0] }

/-- The registered session of demoD, written out. -/
def demoDSession : CollaborationSession :=
  { ydoc := {1, 2}, connections := [], lastActivity := 1,
    participants := [], updateHandlers := [0] }

/-- A configuration whose participant cap is one. -/
def capOneConfig : CollaborationConfig :=
  { sessionTTL := 1200, maxParticipants := 1, cleanupInterval := 60000 }

/-- Demo state under the cap-one configuration after pA connected. -/
def demoCapState : ManagerState :=
  applyEvent capOneConfig demoS0 (Event.accept sockA demoSid "pA" 1)

/-- Metadata whose logical expiry already lapsed. -/
def demoMetaExpired : SessionMetadata :=
  { noteId := "abc", hostId := "h", participants := [], createdAt := 0, expiresAt := 5 }

/-- Store holding the expired metadata under a still-live key. -/
def demoExpiredStore : Store :=
  { sessionMeta := [(demoSid, { value := demoMetaExpired, expireAt := 1000000000 })],
    docSnapshot := [], presence := [] }

/-- Manager state at process start with the expired metadata present. -/
def demoExpiredS : ManagerState := { sessions := [], store := demoExpiredStore }

/-! ## Lemmas about the association-list maps -/

theorem alget_filter_none {κ α : Type} [DecidableEq κ] (p : κ × α → Bool)
    (l : List (κ × α)) (k : κ) (h : ∀ v, p (k, v) = false) :
    alget (l.filter p) k = none := by
  induction l with
  | nil => rfl
  | cons a t ih =>
      rcases a with ⟨k1, v1⟩
      by_cases hp : p (k1, v1)
      · by_cases hk : k1 = k
        · subst hk; rw [h v1] at hp; simp at hp
        · simp [List.filter_cons, hp, alget, hk, ih]
      · simp [List.filter_cons, hp, ih]

theorem alget_filter_all {κ α : Type} [DecidableEq κ] (p : κ × α → Bool)
    (l : List (κ × α)) (k : κ) (h : ∀ v, p (k, v) = true) :
    alget (l.filter p) k = alget l k := by
  induction l with
  | nil => rfl
  | cons a t ih =>
      rcases a with ⟨k1, v1⟩
      by_cases hk : k1 = k
      · subst hk; simp [List.filter_cons, h v1, alget]
      · by_cases hp : p (k1, v1)
        · simp [List.filter_cons, hp, alget, hk, ih]
        · simp [List.filter_cons, hp, alget, hk, ih]

theorem alget_alremove_self {κ α : Type} [DecidableEq κ] (l : List (κ × α)) (k : κ) :
    alget (alremove l k) k = none := by
  apply alget_filter_none
  intro v; simp

theorem alget_alremove_ne {κ α : Type} [DecidableEq κ] (l : List (κ × α)) (k k2 : κ)
    (h : k2 ≠ k) : alget (alremove l k) k2 = alget l k2 := by
  apply alget_filter_all
  intro v; simpa using h

theorem alget_alset_self {κ α : Type} [DecidableEq κ] (l : List (κ × α)) (k : κ) (v : α) :
    alget (alset l k v) k = some v := by
  simp [alset, alget]

theorem alget_alset_ne {κ α : Type} [DecidableEq κ] (l : List (κ × α)) (k k2 : κ) (v : α)
    (h : k2 ≠ k) : alget (alset l k v) k2 = alget l k2 := by
  have hk : ¬ k = k2 := fun e => h e.symm
  simp [alset, alget, hk, alget_alremove_ne l k k2 h]

theorem alget_mem {κ α : Type} [DecidableEq κ] {l : List (κ × α)} {k : κ} {v : α}
    (h : alget l k = some v) : (k, v) ∈ l := by
  induction l with
  | nil => simp [alget] at h
  | cons a t ih =>
      rcases a with ⟨k1, v1⟩
      by_cases hk : k1 = k
      · subst hk
        simp [alget] at h
        simp [h]
      · simp [alget, hk] at h
        exact List.mem_cons_of_mem _ (ih h)

theorem mem_alremove_sub {κ α : Type} [DecidableEq κ] {l : List (κ × α)} {k : κ}
    {e : κ × α} (h : e ∈ alremove l k) : e ∈ l :=
  (List.mem_filter.mp h).1

theorem mem_alset {κ α : Type} [DecidableEq κ] {l : List (κ × α)} {k : κ} {v : α}
    {e : κ × α} (h : e ∈ alset l k v) : e = (k, v) ∨ e ∈ l := by
  rcases List.mem_cons.mp h with h1 | h1
  · exact Or.inl h1
  · exact Or.inr (mem_alremove_sub h1)

theorem alget_of_nodup_mem {κ α : Type} [DecidableEq κ] {l : List (κ × α)} {k : κ} {v : α}
    (hd : (l.map Prod.fst).Nodup) (h : (k, v) ∈ l) : alget l k = some v := by
  induction l with
  | nil => simp at h
  | cons a t ih =>
      rcases a with ⟨k1, v1⟩
      have hd12 : (∀ x : α, (k1, x) ∉ t) ∧ (t.map Prod.fst).Nodup := by simpa using hd
      rcases List.mem_cons.mp h with h1 | h1
      · rw [Prod.mk.injEq] at h1
        simp [alget, h1.1, h1.2]
      · have hk : k1 ≠ k := by
          intro e; subst e
          exact hd12.1 v h1
        simp [alget, hk]
        exact ih hd12.2 h1

/-! ## Lemmas about cleanupSession -/

theorem cleanup_sessions_self (st : ManagerState) (sid : String) :
    alget (cleanupSession st sid).1.sessions sid = none := by
  unfold cleanupSession
  cases h : alget st.sessions sid <;> simp [h, alget_alremove_self]

theorem cleanup_sessions_ne (st : ManagerState) (sid sid2 : String) (h : sid2 ≠ sid) :
    alget (cleanupSession st sid).1.sessions sid2 = alget st.sessions sid2 := by
  unfold cleanupSession
  cases hm : alget st.sessions sid <;> simp [hm, alget_alremove_ne _ _ _ h]

theorem cleanup_meta_self (st : ManagerState) (sid : String) :
    alget (cleanupSession st sid).1.store.sessionMeta sid = none := by
  unfold cleanupSession
  cases h : alget st.sessions sid <;> simp [h, alget_alremove_self]

theorem cleanup_meta_ne (st : ManagerState) (sid sid2 : String) (h : sid2 ≠ sid) :
    alget (cleanupSession st sid).1.store.sessionMeta sid2 = alget st.store.sessionMeta sid2 := by
  unfold cleanupSession
  cases hm : alget st.sessions sid <;> simp [hm, alget_alremove_ne _ _ _ h]

theorem cleanup_doc_self (st : ManagerState) (sid : String) :
    alget (cleanupSession st sid).1.store.docSnapshot sid = none := by
  unfold cleanupSession
  cases h : alget st.sessions sid <;> simp [h, alget_alremove_self]

theorem cleanup_doc_ne (st : ManagerState) (sid sid2 : String) (h : sid2 ≠ sid) :
    alget (cleanupSession st sid).1.store.docSnapshot sid2 = alget st.store.docSnapshot sid2 := by
  unfold cleanupSession
  cases hm : alget st.sessions sid <;> simp [hm, alget_alremove_ne _ _ _ h]

theorem cleanup_presence_self (st : ManagerState) (sid : String) (pid : String) :
    alget (cleanupSession st sid).1.store.presence (sid, pid) = none := by
  unfold cleanupSession
  cases h : alget st.sessions sid <;>
    (simp [h]; apply alget_filter_none; intro v; simp)

theorem cleanup_presence_ne (st : ManagerState) (sid sid2 : String) (pid : String)
    (h : sid2 ≠ sid) :
    alget (cleanupSession st sid).1.store.presence (sid2, pid)
      = alget st.store.presence (sid2, pid) := by
  unfold cleanupSession
  cases hm : alget st.sessions sid <;>
    (simp [hm]; apply alget_filter_all; intro v; simpa using h)

theorem cleanup_effects_of_entry {st : ManagerState} {sid : String}
    {s : CollaborationSession} (h : alget st.sessions sid = some s) :
    (cleanupSession st sid).2
      = ((s.connections.filter (fun c => c.readyState == WS_OPEN)).map
          (fun c => Effect.closeSock c.sid 1000 "Session ended"))
        ++ [Effect.destroyReplica sid] := by
  simp [cleanupSession, h]

theorem mem_cleanup_sessions {st : ManagerState} {sid : String} {e : String × CollaborationSession}
    (h : e ∈ (cleanupSession st sid).1.sessions) : e ∈ st.sessions := by
  unfold cleanupSession at h
  cases hm : alget st.sessions sid <;> simp [hm] at h
  · exact h
  · exact mem_alremove_sub h

/-! ## Lemmas about the cleanup loops -/

theorem cleanupStep_fst (acc : ManagerState × List Effect) (sid : String) :
    (cleanupStep acc sid).1 = (cleanupSession acc.1 sid).1 := rfl

theorem mem_cleanupStep_effects {acc : ManagerState × List Effect} {sid : String}
    {e : Effect} (h : e ∈ acc.2) : e ∈ (cleanupStep acc sid).2 := by
  simp only [cleanupStep, List.mem_append]
  exact Or.inl h

theorem foldl_cleanupStep_effects_mono {e : Effect} :
    ∀ (ids : List String) (acc : ManagerState × List Effect), e ∈ acc.2 →
      e ∈ (ids.foldl cleanupStep acc).2 := by
  intro ids
  induction ids with
  | nil => intro acc h; exact h
  | cons i t ih =>
      intro acc h
      rw [List.foldl_cons]
      exact ih _ (mem_cleanupStep_effects h)

theorem cleanup_gone_mono {st : ManagerState} {sid : String} (sid2 : String)
    (h1 : alget st.sessions sid = none)
    (h2 : alget st.store.sessionMeta sid = none)
    (h3 : alget st.store.docSnapshot sid = none)
    (h4 : ∀ pid, alget st.store.presence (sid, pid) = none) :
    alget (cleanupSession st sid2).1.sessions sid = none ∧
    alget (cleanupSession st sid2).1.store.sessionMeta sid = none ∧
    alget (cleanupSession st sid2).1.store.docSnapshot sid = none ∧
    (∀ pid, alget (cleanupSession st sid2).1.store.presence (sid, pid) = none) := by
  by_cases h : sid = sid2
  · subst h
    exact ⟨cleanup_sessions_self st sid, cleanup_meta_self st sid,
           cleanup_doc_self st sid, fun pid => cleanup_presence_self st sid pid⟩
  · exact ⟨(cleanup_sessions_ne st sid2 sid h).trans h1,
           (cleanup_meta_ne st sid2 sid h).trans h2,
           (cleanup_doc_ne st sid2 sid h).trans h3,
           fun pid => (cleanup_presence_ne st sid2 sid pid h).trans (h4 pid)⟩

theorem foldl_cleanup_gone :
    ∀ (ids : List String) (acc : ManagerState × List Effect) (sid : String),
      alget acc.1.sessions sid = none →
      alget acc.1.store.sessionMeta sid = none →
      alget acc.1.store.docSnapshot sid = none →
      (∀ pid, alget acc.1.store.presence (sid, pid) = none) →
      alget (ids.foldl cleanupStep acc).1.sessions sid = none ∧
      alget (ids.foldl cleanupStep acc).1.store.sessionMeta sid = none ∧
      alget (ids.foldl cleanupStep acc).1.store.docSnapshot sid = none ∧
      (∀ pid, alget (ids.foldl cleanupStep acc).1.store.presence (sid, pid) = none) := by
  intro ids
  induction ids with
  | nil => intro acc sid h1 h2 h3 h4; exact ⟨h1, h2, h3, h4⟩
  | cons i t ih =>
      intro acc sid h1 h2 h3 h4
      rw [List.foldl_cons]
      obtain ⟨g1, g2, g3, g4⟩ := @cleanup_gone_mono acc.1 sid i h1 h2 h3 h4
      exact ih (cleanupStep acc i) sid g1 g2 g3 g4

theorem foldl_cleanup_mem_gone :
    ∀ (ids : List String) (acc : ManagerState × List Effect) (sid : String), sid ∈ ids →
      alget (ids.foldl cleanupStep acc).1.sessions sid = none ∧
      alget (ids.foldl cleanupStep acc).1.store.sessionMeta sid = none ∧
      alget (ids.foldl cleanupStep acc).1.store.docSnapshot sid = none ∧
      (∀ pid, alget (ids.foldl cleanupStep acc).1.store.presence (sid, pid) = none) := by
  intro ids
  induction ids with
  | nil => intro acc sid h; simp at h
  | cons i t ih =>
      intro acc sid h
      rw [List.foldl_cons]
      by_cases hi : sid = i
      · subst hi
        exact foldl_cleanup_gone t (cleanupStep acc sid) sid
          (cleanup_sessions_self acc.1 sid) (cleanup_meta_self acc.1 sid)
          (cleanup_doc_self acc.1 sid) (fun pid => cleanup_presence_self acc.1 sid pid)
      · rcases List.mem_cons.mp h with h1 | h1
        · exact absurd h1 hi
        · exact ih (cleanupStep acc i) sid h1

theorem foldl_cleanup_ne :
    ∀ (ids : List String) (acc : ManagerState × List Effect) (sid : String),
      (∀ i ∈ ids, sid ≠ i) →
      alget (ids.foldl cleanupStep acc).1.sessions sid = alget acc.1.sessions sid ∧
      alget (ids.foldl cleanupStep acc).1.store.sessionMeta sid
        = alget acc.1.store.sessionMeta sid ∧
      alget (ids.foldl cleanupStep acc).1.store.docSnapshot sid
        = alget acc.1.store.docSnapshot sid ∧
      (∀ pid, alget (ids.foldl cleanupStep acc).1.store.presence (sid, pid)
        = alget acc.1.store.presence (sid, pid)) := by
  intro ids
  induction ids with
  | nil => intro acc sid _; exact ⟨rfl, rfl, rfl, fun _ => rfl⟩
  | cons i t ih =>
      intro acc sid h
      rw [List.foldl_cons]
      have hi : sid ≠ i := h i (List.mem_cons_self i t)
      have ht : ∀ j ∈ t, sid ≠ j := fun j hj => h j (List.mem_cons_of_mem i hj)
      obtain ⟨g1, g2, g3, g4⟩ := ih (cleanupStep acc i) sid ht
      exact ⟨g1.trans (cleanup_sessions_ne acc.1 i sid hi),
             g2.trans (cleanup_meta_ne acc.1 i sid hi),
             g3.trans (cleanup_doc_ne acc.1 i sid hi),
             fun pid => (g4 pid).trans (cleanup_presence_ne acc.1 i sid pid hi)⟩

theorem foldl_cleanup_effects :
    ∀ (ids : List String) (acc : ManagerState × List Effect) (sid : String)
      (s : CollaborationSession), sid ∈ ids → alget acc.1.sessions sid = some s →
      Effect.destroyReplica sid ∈ (ids.foldl cleanupStep acc).2 ∧
      (∀ c ∈ s.connections, c.readyState = WS_OPEN →
        Effect.closeSock c.sid 1000 "Session ended" ∈ (ids.foldl cleanupStep acc).2) := by
  intro ids
  induction ids with
  | nil => intro acc sid s h; simp at h
  | cons i t ih =>
      intro acc sid s h hs
      rw [List.foldl_cons]
      by_cases hi : sid = i
      · subst hi
        have he := @cleanup_effects_of_entry acc.1 sid s hs
        constructor
        · apply foldl_cleanupStep_effects_mono
          simp only [cleanupStep, he, List.mem_append]
          right
          simp
        · intro c hc hopen
          apply foldl_cleanupStep_effects_mono
          simp only [cleanupStep, he, List.mem_append]
          right
          left
          exact List.mem_map.mpr
            ⟨c, List.mem_filter.mpr ⟨hc, by simp [hopen]⟩, rfl⟩
      · rcases List.mem_cons.mp h with h1 | h1
        · exact absurd h1 hi
        · have hs2 : alget (cleanupStep acc i).1.sessions sid = some s := by
            rw [cleanupStep_fst, cleanup_sessions_ne acc.1 i sid hi]
            exact hs
          exact ih (cleanupStep acc i) sid s h1 hs2

/-! ## Lemmas about the message path -/

theorem fireUpdateEvent_sessions (cfg : CollaborationConfig) (st : ManagerState)
    (sid : String) (delta : OpSet) (now : Nat) :
    (fireUpdateEvent cfg st sid delta now).1.sessions = st.sessions := rfl

theorem applyCarriedUpdate_sessions_shape (cfg : CollaborationConfig) (st : ManagerState)
    (sid : String) (u : YUpdate) (now : Nat) :
    (applyCarriedUpdate cfg st sid u now).1.sessions = st.sessions ∨
    ∃ s ops, alget st.sessions sid = some s ∧
      (applyCarriedUpdate cfg st sid u now).1.sessions
        = alset st.sessions sid { s with ydoc := applyOps s.ydoc ops } := by
  cases u with
  | corrupt => left; rfl
  | valid ops =>
      cases h : alget st.sessions sid with
      | none => left; simp [applyCarriedUpdate, h]
      | some s =>
          right
          refine ⟨s, ops, rfl, ?_⟩
          simp only [applyCarriedUpdate, h]
          split
          · rfl
          · rfl

theorem handleYjsMessage_sessions_shape (cfg : CollaborationConfig) (st : ManagerState)
    (ws : Socket) (sid : String) (msg : Message) (now : Nat) :
    (handleYjsMessage cfg st ws sid msg now).1.sessions = st.sessions ∨
    ∃ s ops, alget st.sessions sid = some s ∧
      (handleYjsMessage cfg st ws sid msg now).1.sessions
        = alset st.sessions sid { s with ydoc := applyOps s.ydoc ops } := by
  cases msg with
  | syncStep1 u =>
      cases u with
      | none => left; rfl
      | some uu => exact applyCarriedUpdate_sessions_shape cfg st sid uu now
  | syncStep2 u =>
      cases u with
      | none => left; rfl
      | some uu => exact applyCarriedUpdate_sessions_shape cfg st sid uu now
  | syncUpdate u =>
      cases u with
      | none => left; rfl
      | some uu => exact applyCarriedUpdate_sessions_shape cfg st sid uu now
  | awareness p =>
      left
      cases h : alget st.sessions sid <;> simp [handleYjsMessage, h]
  | unknown t => left; rfl

theorem onMessage_fst_eq (cfg : CollaborationConfig) (st : ManagerState) (ws : Socket)
    (sid : String) (msg : Message) (now : Nat) :
    (onSocketMessage cfg st ws sid (Frame.parsed msg) now).1
      = (handleYjsMessage cfg st ws sid msg now).1 := by
  simp only [onSocketMessage]
  split <;> rfl

theorem onMessage_sessions_shape (cfg : CollaborationConfig) (st : ManagerState)
    (ws : Socket) (sid : String) (fr : Frame) (now : Nat) :
    (onSocketMessage cfg st ws sid fr now).1.sessions = st.sessions ∨
    ∃ s ops, alget st.sessions sid = some s ∧
      (onSocketMessage cfg st ws sid fr now).1.sessions
        = alset st.sessions sid { s with ydoc := applyOps s.ydoc ops } := by
  cases fr with
  | malformed => left; rfl
  | parsed msg =>
      rw [onMessage_fst_eq]
      exact handleYjsMessage_sessions_shape cfg st ws sid msg now

theorem onMessage_preserves_shape (cfg : CollaborationConfig) (st : ManagerState)
    (ws : Socket) (sid : String) (fr : Frame) (now : Nat) (x : String) :
    connsOf (onSocketMessage cfg st ws sid fr now).1 x = connsOf st x ∧
    partsOf (onSocketMessage cfg st ws sid fr now).1 x = partsOf st x ∧
    activityOf (onSocketMessage cfg st ws sid fr now).1 x = activityOf st x := by
  rcases onMessage_sessions_shape cfg st ws sid fr now with h | ⟨s, ops, hs, h⟩
  · simp [connsOf, partsOf, activityOf, h]
  · by_cases hx : x = sid
    · subst hx
      simp [connsOf, partsOf, activityOf, h, alget_alset_self, hs]
    · simp [connsOf, partsOf, activityOf, h, alget_alset_ne _ _ _ _ hx]

theorem fireUpdateEvent_effects_send (cfg : CollaborationConfig) (st : ManagerState)
    (sid : String) (delta : OpSet) (now : Nat) :
    ∀ e ∈ (fireUpdateEvent cfg st sid delta now).2, ∃ t m, e = Effect.send t m := by
  intro e
  unfold fireUpdateEvent
  cases h : alget st.sessions sid with
  | none => intro he; simp at he
  | some s =>
      intro he
      simp only [List.mem_flatten, List.mem_map] at he
      obtain ⟨l, ⟨hId, hmem, rfl⟩, hel⟩ := he
      obtain ⟨c, hcm, rfl⟩ := List.mem_map.mp hel
      exact ⟨c.sid, _, rfl⟩

theorem applyCarriedUpdate_effects_send (cfg : CollaborationConfig) (st : ManagerState)
    (sid : String) (u : YUpdate) (now : Nat) :
    ∀ e ∈ (applyCarriedUpdate cfg st sid u now).2.1, ∃ t m, e = Effect.send t m := by
  intro e he
  cases u with
  | corrupt => simp [applyCarriedUpdate] at he
  | valid ops =>
      unfold applyCarriedUpdate at he
      revert he
      cases h : alget st.sessions sid with
      | none => intro he; simp at he
      | some s =>
          intro he
          by_cases hd : ops \ s.ydoc = ∅
          · simp [hd] at he
          · simp only [hd, if_false] at he
            exact fireUpdateEvent_effects_send _ _ _ _ _ e (by simpa using he)

theorem handleYjsMessage_effects_shape (cfg : CollaborationConfig) (st : ManagerState)
    (ws : Socket) (sid : String) (msg : Message) (now : Nat) :
    ∀ e ∈ (handleYjsMessage cfg st ws sid msg now).2.1,
      (∃ t m, e = Effect.send t m) ∨ e = Effect.logWarn "Unknown message type" := by
  intro e he
  cases msg with
  | syncStep1 u =>
      cases u with
      | none => simp [handleYjsMessage] at he
      | some uu => exact Or.inl (applyCarriedUpdate_effects_send cfg st sid uu now e he)
  | syncStep2 u =>
      cases u with
      | none => simp [handleYjsMessage] at he
      | some uu => exact Or.inl (applyCarriedUpdate_effects_send cfg st sid uu now e he)
  | syncUpdate u =>
      cases u with
      | none => simp [handleYjsMessage] at he
      | some uu => exact Or.inl (applyCarriedUpdate_effects_send cfg st sid uu now e he)
  | awareness p =>
      revert he
      unfold handleYjsMessage
      cases h : alget st.sessions sid with
      | none => intro he; simp at he
      | some s =>
          intro he
          simp only [List.mem_map] at he
          obtain ⟨c, hcm, rfl⟩ := he
          exact Or.inl ⟨c.sid, _, rfl⟩
  | unknown t =>
      simp [handleYjsMessage] at he
      exact Or.inr he

theorem onMessage_no_close (cfg : CollaborationConfig) (st : ManagerState) (ws : Socket)
    (sid : String) (fr : Frame) (now : Nat) (a b : Nat) (r : String) :
    Effect.closeSock a b r ∉ (onSocketMessage cfg st ws sid fr now).2 := by
  intro hmem
  cases fr with
  | malformed => simp [onSocketMessage] at hmem
  | parsed msg =>
      revert hmem
      simp only [onSocketMessage]
      split
      · intro hmem
        rcases List.mem_append.mp hmem with h1 | h1
        · rcases handleYjsMessage_effects_shape cfg st ws sid msg now _ h1 with ⟨t, m, he⟩ | he <;>
            simp at he
        · simp at h1
      · intro hmem
        rcases handleYjsMessage_effects_shape cfg st ws sid msg now _ hmem with ⟨t, m, he⟩ | he <;>
          simp at he

/-! ## Lemmas about document evolution under the relay -/

theorem docOf_relayStep (cfg : CollaborationConfig) (st : ManagerState) (ws : Socket)
    (sid : String) (now : Nat) (ops : OpSet) (x : String) :
    docOf (onSocketMessage cfg st ws sid (syncUpdateFrame ops) now).1 x
      = if x = sid then (docOf st sid).map (fun d => d ∪ ops) else docOf st x := by
  have he : (onSocketMessage cfg st ws sid (syncUpdateFrame ops) now).1
      = (applyCarriedUpdate cfg st sid (YUpdate.valid ops) now).1 :=
    onMessage_fst_eq cfg st ws sid (Message.syncUpdate (some (YUpdate.valid ops))) now
  rw [he]
  cases h : alget st.sessions sid with
  | none =>
      have hst : (applyCarriedUpdate cfg st sid (YUpdate.valid ops) now).1 = st := by
        simp [applyCarriedUpdate, h]
      rw [hst]
      by_cases hx : x = sid
      · subst hx; simp [docOf, h]
      · simp [hx]
  | some s =>
      have hsess : (applyCarriedUpdate cfg st sid (YUpdate.valid ops) now).1.sessions
          = alset st.sessions sid { s with ydoc := applyOps s.ydoc ops } := by
        simp only [applyCarriedUpdate, h]
        split
        · rfl
        · rfl
      by_cases hx : x = sid
      · subst hx
        simp [docOf, hsess, alget_alset_self, h, applyOps]
      · simp [docOf, hsess, alget_alset_ne _ _ _ _ hx, hx]

theorem docOf_relayStep_self (cfg : CollaborationConfig) (st : ManagerState) (ws : Socket)
    (sid : String) (now : Nat) (ops : OpSet) :
    docOf (onSocketMessage cfg st ws sid (syncUpdateFrame ops) now).1 sid
      = (docOf st sid).map (fun d => d ∪ ops) := by
  rw [docOf_relayStep]
  simp

theorem docOf_relayStep_ne (cfg : CollaborationConfig) (st : ManagerState) (ws : Socket)
    (sid : String) (now : Nat) (ops : OpSet) (x : String) (hx : ¬ x = sid) :
    docOf (onSocketMessage cfg st ws sid (syncUpdateFrame ops) now).1 x
      = docOf st x := by
  rw [docOf_relayStep]
  simp [hx]

theorem foldl_map_union_perm {l1 l2 : List (Socket × OpSet)} (h : l1.Perm l2) :
    ∀ d : Option YDoc,
      l1.foldl (fun acc e => acc.map (fun dd => dd ∪ e.2)) d
        = l2.foldl (fun acc e => acc.map (fun dd => dd ∪ e.2)) d := by
  induction h with
  | nil => intro d; rfl
  | cons a h2 ih =>
      intro d
      rw [List.foldl_cons, List.foldl_cons]
      exact ih _
  | swap a b l =>
      intro d
      rw [List.foldl_cons, List.foldl_cons, List.foldl_cons, List.foldl_cons]
      congr 1
      cases d with
      | none => rfl
      | some dd =>
          show some (dd ∪ b.2 ∪ a.2) = some (dd ∪ a.2 ∪ b.2)
          rw [Finset.union_right_comm]
  | trans h1 h2 ih1 ih2 => intro d; exact (ih1 d).trans (ih2 d)

theorem relayUpdates_docOf (cfg : CollaborationConfig) :
    ∀ (l : List (Socket × OpSet)) (st : ManagerState) (sid : String) (now : Nat) (x : String),
      docOf (relayUpdates cfg st sid now l) x
        = if x = sid then
            l.foldl (fun acc e => acc.map (fun dd => dd ∪ e.2)) (docOf st sid)
          else docOf st x := by
  intro l
  induction l with
  | nil =>
      intro st sid now x
      by_cases hx : x = sid <;> simp [relayUpdates, hx]
  | cons e t ih =>
      intro st sid now x
      have hstep : relayUpdates cfg st sid now (e :: t)
          = relayUpdates cfg
              (onSocketMessage cfg st e.1 sid (syncUpdateFrame e.2) now).1 sid now t := rfl
      rw [hstep, ih]
      by_cases hx : x = sid
      · subst hx
        simp only [if_pos rfl, List.foldl_cons]
        rw [docOf_relayStep]
        simp
      · simp only [if_neg hx]
        rw [docOf_relayStep]
        simp [hx]

/-! ## Lemmas about traffic traces and the sweeper -/

theorem applyMessageTrace_activity (cfg : CollaborationConfig) :
    ∀ (trace : List (Socket × String × Frame × Nat)) (st : ManagerState) (x : String),
      activityOf (applyMessageTrace cfg st trace) x = activityOf st x := by
  intro trace
  induction trace with
  | nil => intro st x; rfl
  | cons e t ih =>
      intro st x
      have hstep : applyMessageTrace cfg st (e :: t)
          = applyMessageTrace cfg (onSocketMessage cfg st e.1 e.2.1 e.2.2.1 e.2.2.2).1 t := rfl
      rw [hstep, ih]
      exact (onMessage_preserves_shape cfg st e.1 e.2.1 e.2.2.1 e.2.2.2 x).2.2

theorem sweep_removes_idle {cfg : CollaborationConfig} {st : ManagerState} {now : Nat}
    {sid : String} {la : Nat} (ha : activityOf st sid = some la)
    (hidle : cfg.sessionTTL * 1000 < now - la) :
    alget (performPeriodicCleanup cfg st now).1.sessions sid = none := by
  obtain ⟨s, hs, hla⟩ : ∃ s, alget st.sessions sid = some s ∧ s.lastActivity = la := by
    unfold activityOf at ha
    cases h : alget st.sessions sid with
    | none => rw [h] at ha; simp at ha
    | some s =>
        rw [h] at ha
        simp at ha
        exact ⟨s, rfl, ha⟩
  have hmem : sid ∈ idleSessionIds cfg st now := by
    unfold idleSessionIds
    apply List.mem_map.mpr
    refine ⟨(sid, s), List.mem_filter.mpr ⟨alget_mem hs, ?_⟩, rfl⟩
    simp [hla, hidle]
  exact (foldl_cleanup_mem_gone (idleSessionIds cfg st now) (st, []) sid hmem).1

/-! ## Preservation of the participant cap -/

theorem cap_alset {cfg : CollaborationConfig} {l : List (String × CollaborationSession)}
    {sid : String} {v : CollaborationSession}
    (hv : v.participants.length ≤ cfg.maxParticipants)
    (hl : ∀ e ∈ l, e.2.participants.length ≤ cfg.maxParticipants) :
    ∀ e ∈ alset l sid v, e.2.participants.length ≤ cfg.maxParticipants := by
  intro e he
  rcases mem_alset he with h1 | h1
  · rw [h1]; exact hv
  · exact hl e h1

theorem mem_foldl_cleanup_sessions :
    ∀ (ids : List String) (acc : ManagerState × List Effect) (e : String × CollaborationSession),
      e ∈ (ids.foldl cleanupStep acc).1.sessions → e ∈ acc.1.sessions := by
  intro ids
  induction ids with
  | nil => intro acc e h; exact h
  | cons i t ih =>
      intro acc e h
      rw [List.foldl_cons] at h
      exact mem_cleanup_sessions (ih (cleanupStep acc i) e h)

theorem handleConnection_cap (cfg : CollaborationConfig) (st : ManagerState) (ws : Socket)
    (sid pid : String) (now : Nat) (hcap : ParticipantCapOK cfg st) :
    ParticipantCapOK cfg (handleConnection cfg st ws sid pid now).1 := by
  unfold handleConnection
  cases hm : st.store.getMeta now sid with
  | none => exact hcap
  | some metadata =>
      dsimp only
      split
      · intro e he
        exact hcap e (mem_cleanup_sessions he)
      · cases hg : alget st.sessions sid with
        | some s =>
            dsimp only
            by_cases hfull : cfg.maxParticipants ≤ s.participants.length
            · rw [if_pos hfull]
              exact hcap
            · rw [if_neg hfull]
              refine cap_alset ?_ hcap
              show (if pid ∈ s.participants then s.participants
                    else s.participants ++ [pid]).length ≤ cfg.maxParticipants
              split
              · omega
              · simp only [List.length_append, List.length_cons, List.length_nil]
                omega
        | none =>
            dsimp only [createSession]
            by_cases hfull : cfg.maxParticipants ≤
                (List.length ([] : List String))
            · rw [if_pos hfull]
              exact cap_alset (by simp) hcap
            · rw [if_neg hfull]
              refine cap_alset ?_ (cap_alset (by simp) hcap)
              show (if pid ∈ ([] : List String) then ([] : List String)
                    else ([] : List String) ++ [pid]).length ≤ cfg.maxParticipants
              simp only [List.not_mem_nil, if_false, List.nil_append, List.length_cons,
                List.length_nil]
              omega

theorem applyEvent_cap (cfg : CollaborationConfig) (st : ManagerState) (e : Event)
    (hcap : ParticipantCapOK cfg st) : ParticipantCapOK cfg (applyEvent cfg st e) := by
  cases e with
  | accept ws sid pid now =>
      show ParticipantCapOK cfg (wsRoute cfg st ws sid pid now).1
      unfold wsRoute
      split
      · exact handleConnection_cap cfg st ws sid pid now hcap
      · exact hcap
  | message ws sid fr now =>
      intro e2 he
      rcases onMessage_sessions_shape cfg st ws sid fr now with h | ⟨s, ops, hs, h⟩
      · have he2 : e2 ∈ st.sessions := by
          rw [← h]; exact he
        exact hcap e2 he2
      · have he2 : e2 ∈ alset st.sessions sid { s with ydoc := applyOps s.ydoc ops } := by
          rw [← h]; exact he
        refine cap_alset ?_ hcap e2 he2
        exact hcap (sid, s) (alget_mem hs)
  | disconnect ws sid pid =>
      show ParticipantCapOK cfg (handleDisconnection st ws sid pid).1
      unfold handleDisconnection
      cases hg : alget st.sessions sid with
      | none => exact hcap
      | some s =>
          dsimp only
          refine cap_alset ?_ hcap
          calc (s.participants.filter (fun p => p != pid)).length
              ≤ s.participants.length := List.length_filter_le _ _
            _ ≤ cfg.maxParticipants := hcap (sid, s) (alget_mem hg)
  | graceFire sid =>
      show ParticipantCapOK cfg (graceTimerFire st sid).1
      unfold graceTimerFire
      cases hg : alget st.sessions sid with
      | none => exact hcap
      | some s =>
          dsimp only
          split
          · intro e2 he
            exact hcap e2 (mem_cleanup_sessions he)
          · exact hcap
  | sweep now =>
      intro e2 he
      exact hcap e2 (mem_foldl_cleanup_sessions _ _ _ he)
  | startSession sid nid hid now => exact hcap
  | endSession sid => exact hcap
  | shutdown =>
      intro e2 he
      exact hcap e2 (mem_foldl_cleanup_sessions _ _ _ he)

theorem reachable_cap {cfg : CollaborationConfig} {st : ManagerState}
    (h : Reachable cfg st) : ParticipantCapOK cfg st := by
  induction h with
  | init store => intro e he; simp at he
  | step e hst ih => exact applyEvent_cap _ _ e ih

/-! ## Lemmas about the first-connection race -/

theorem raceRun_le :
    ∀ (sched : List Bool) (st : RaceState),
      st.constructed + (match st.taskA with | TaskPhase.ready => 1 | _ => 0)
        + (match st.taskB with | TaskPhase.ready => 1 | _ => 0) ≤ 2 →
      (sched.foldl raceStep st).constructed ≤ 2 := by
  intro sched
  induction sched with
  | nil =>
      intro st h
      rcases st with ⟨reg, k, ta, tb⟩
      cases ta <;> cases tb <;> simp at h ⊢ <;> omega
  | cons w t ih =>
      intro st h
      rw [List.foldl_cons]
      apply ih
      rcases st with ⟨reg, k, ta, tb⟩
      cases w <;> cases ta <;> cases tb <;> cases reg <;>
        simp [raceStep] at h ⊢ <;> omega

theorem raceRun_stable :
    ∀ (sched : List Bool) (st : RaceState) (r c : Nat),
      st.registry = some r → st.constructed = c →
      (∀ d, st.taskA ≠ TaskPhase.awaitingSnapshot d) →
      (∀ d, st.taskB ≠ TaskPhase.awaitingSnapshot d) →
      (sched.foldl raceStep st).registry = some r ∧
      (sched.foldl raceStep st).constructed = c ∧
      (∀ d, (sched.foldl raceStep st).taskA ≠ TaskPhase.awaitingSnapshot d) ∧
      (∀ d, (sched.foldl raceStep st).taskB ≠ TaskPhase.awaitingSnapshot d) := by
  intro sched
  induction sched with
  | nil => intro st r c h1 h2 hA hB; exact ⟨h1, h2, hA, hB⟩
  | cons w t ih =>
      intro st r c h1 h2 hA hB
      rw [List.foldl_cons]
      rcases st with ⟨reg, k, ta, tb⟩
      simp only at h1 h2
      subst h1; subst h2
      cases w
      · cases tb with
        | ready => exact ih _ r _ rfl rfl (by simpa [raceStep] using hA) (fun d h => by simp [raceStep] at h)
        | awaitingSnapshot d => exact absurd rfl (hB d)
        | done d => exact ih _ r _ rfl rfl (by simpa [raceStep] using hA) (by simp [raceStep])
      · cases ta with
        | ready => exact ih _ r _ rfl rfl (fun d h => by simp [raceStep] at h) (by simpa [raceStep] using hB)
        | awaitingSnapshot d => exact absurd rfl (hA d)
        | done d => exact ih _ r _ rfl rfl (by simp [raceStep]) (by simpa [raceStep] using hB)

/-! ## The claims -/

/-- C2: the claim that a relayed update reaches each other open socket exactly
once and never the originating socket fails on the code.  With the three open
sockets of demoS3 attached, an update carried by a message from sockA is
delivered twice to every socket, the originator included: each attached socket
registered its own ydoc update listener in setupYjsSync, and every listener
rebroadcasts the update event to all open sockets other than its own. -/
theorem c2_update_broadcast_bug :
    countSyncTo ((onSocketMessage defaultConfig demoS3 sockA demoSid
        (syncUpdateFrame {5}) 10).2) sockA.sid = 2 ∧
    countSyncTo ((onSocketMessage defaultConfig demoS3 sockA demoSid
        (syncUpdateFrame {5}) 10).2) sockB.sid = 2 ∧
    countSyncTo ((onSocketMessage defaultConfig demoS3 sockA demoSid
        (syncUpdateFrame {5}) 10).2) sockC.sid = 2 := by
  decide

/-- C3: the claim that the snapshot key always holds an encoding of the full
replica state fails on the code.  After the demo session applied the updates
containing operations 1 and then 2, the in-memory replica holds both, but the
persistence listener stored only the latest incremental update payload, so the
snapshot key holds just operation 2 and a replica rehydrated from it by
createSession differs from the replica state at the time of the write. -/
theorem c3_snapshot_not_full_state :
    (alget demoT3.sessions demoSid).map CollaborationSession.ydoc
      = some ({1, 2} : OpSet) ∧
    (alget demoT3.store.docSnapshot demoSid).map Entry.value = some ({2} : OpSet) ∧
    (createSession defaultConfig { demoT3 with sessions := [] } demoSid demoMeta 4).2.1.ydoc
      = ({2} : OpSet) ∧
    ({2} : OpSet) ≠ ({1, 2} : OpSet) := by
  decide

/-- C4 counterexample: interleaving the two registry checks before either
insertion constructs two replicas, and the registry ends up with the second
one while task A keeps the first, refuting both the at-most-one-construction
claim and the all-lookups-return-that-entry claim. -/
theorem c4_counterexample :
    (runRace [true, false, true, false]).constructed = 2 ∧
    (runRace [true, false, true, false]).registry = some 1 ∧
    (runRace [true, false, true, false]).taskA = TaskPhase.done 0 := by
  decide

/-- C4 amended: under the racing interleavings permitted by the suspension
between the registry check and the insertion, at most two replicas are
constructed for two concurrent first connections, not one; when the first
accesses are serial (one task finishes both segments before the other starts),
exactly one replica is constructed and it remains the registry entry that
every later lookup returns. -/
theorem c4_create_once_amended :
    (∀ sched : List Bool, (runRace sched).constructed ≤ 2) ∧
    (∀ (w : Bool) (rest : List Bool),
      (runRace ([w, w] ++ rest)).constructed = 1 ∧
      (runRace ([w, w] ++ rest)).registry = some 0) := by
  constructor
  · intro sched
    exact raceRun_le sched raceInit (by decide)
  · intro w rest
    have hbase : ([w, w].foldl raceStep raceInit).registry = some 0 ∧
        ([w, w].foldl raceStep raceInit).constructed = 1 ∧
        (∀ d, ([w, w].foldl raceStep raceInit).taskA ≠ TaskPhase.awaitingSnapshot d) ∧
        (∀ d, ([w, w].foldl raceStep raceInit).taskB ≠ TaskPhase.awaitingSnapshot d) := by
      cases w
      · exact ⟨rfl, rfl, fun d h => by simp [raceStep, raceInit] at h,
          fun d h => by simp [raceStep, raceInit] at h⟩
      · exact ⟨rfl, rfl, fun d h => by simp [raceStep, raceInit] at h,
          fun d h => by simp [raceStep, raceInit] at h⟩
    have hs := raceRun_stable rest ([w, w].foldl raceStep raceInit) 0 1
      hbase.1 hbase.2.1 hbase.2.2.1 hbase.2.2.2
    unfold runRace
    rw [List.foldl_append]
    exact ⟨hs.2.1, hs.1⟩

/-- C6: the WebSocket route closes a sessionId failing the UUID v4 test with
the distinct reason Invalid session ID format, touching no state and reading
no store key; a well-formed id whose metadata read comes back empty is closed
Session not found or expired with no state change; metadata whose expiresAt
lies in the past is closed Session expired and triggers cleanupSession. -/
theorem c6_accept_validation (cfg : CollaborationConfig) (st : ManagerState)
    (ws : Socket) (sessionId participantId : String) (now : Nat) :
    (uuidV4Test sessionId = false →
      wsRoute cfg st ws sessionId participantId now
        = (st, [Effect.closeSock ws.sid 1008 "Invalid session ID format"])) ∧
    (uuidV4Test sessionId = true → st.store.getMeta now sessionId = none →
      wsRoute cfg st ws sessionId participantId now
        = (st, [Effect.storeRead (sessionKey sessionId),
                Effect.closeSock ws.sid 1008 "Session not found or expired"])) ∧
    (∀ metadata : SessionMetadata, uuidV4Test sessionId = true →
      st.store.getMeta now sessionId = some metadata → metadata.expiresAt < now →
      wsRoute cfg st ws sessionId participantId now
        = ((cleanupSession st sessionId).1,
           Effect.storeRead (sessionKey sessionId)
             :: Effect.closeSock ws.sid 1008 "Session expired"
             :: (cleanupSession st sessionId).2)) := by
  refine ⟨?_, ?_, ?_⟩
  · intro h
    simp [wsRoute, h]
  · intro h hm
    simp [wsRoute, h, handleConnection, hm]
  · intro metadata h hm hexp
    simp [wsRoute, h, handleConnection, hm, hexp]

/-- Witness for C6: a malformed id, a well-formed unknown id, and an id with
lapsed metadata, each at concrete inputs. -/
theorem c6_accept_validation_witness :
    (wsRoute defaultConfig demoS0 sockA "not-a-uuid" "p" 1
      = (demoS0, [Effect.closeSock sockA.sid 1008 "Invalid session ID format"])) ∧
    (wsRoute defaultConfig demoS0 sockA demoSid2 "p" 1
      = (demoS0, [Effect.storeRead (sessionKey demoSid2),
          Effect.closeSock sockA.sid 1008 "Session not found or expired"])) ∧
    (wsRoute defaultConfig demoExpiredS sockA demoSid "p" 10
      = ((cleanupSession demoExpiredS demoSid).1,
         Effect.storeRead (sessionKey demoSid)
           :: Effect.closeSock sockA.sid 1008 "Session expired"
           :: (cleanupSession demoExpiredS demoSid).2)) :=
  ⟨(c6_accept_validation defaultConfig demoS0 sockA "not-a-uuid" "p" 1).1 (by decide),
   (c6_accept_validation defaultConfig demoS0 sockA demoSid2 "p" 1).2.1
     (by decide) (by decide),
   (c6_accept_validation defaultConfig demoExpiredS sockA demoSid "p" 10).2.2
     demoMetaExpired (by decide) (by decide) (by decide)⟩

/-- C8: no received frame detaches a connection: for every frame the message
listener leaves every connection set and participant set unchanged and emits
no close; a parse failure and a failed update apply are logged with the state
untouched, an unrecognized type is logged as a warning; the socket is removed
from its session only by the close/error handler handleDisconnection. -/
theorem c8_message_error_isolation (cfg : CollaborationConfig) (st : ManagerState)
    (ws : Socket) (sessionId : String) (now : Nat) :
    (∀ (fr : Frame) (x : String),
      connsOf (onSocketMessage cfg st ws sessionId fr now).1 x = connsOf st x ∧
      partsOf (onSocketMessage cfg st ws sessionId fr now).1 x = partsOf st x ∧
      (∀ (a b : Nat) (r : String),
        Effect.closeSock a b r ∉ (onSocketMessage cfg st ws sessionId fr now).2)) ∧
    (onSocketMessage cfg st ws sessionId Frame.malformed now
      = (st, [Effect.logError "Failed to parse WebSocket message"])) ∧
    (onSocketMessage cfg st ws sessionId
        (Frame.parsed (Message.syncUpdate (some YUpdate.corrupt))) now
      = (st, [Effect.logError "Failed to parse WebSocket message"])) ∧
    (∀ t : String, onSocketMessage cfg st ws sessionId
        (Frame.parsed (Message.unknown t)) now
      = (st, [Effect.logWarn "Unknown message type"])) ∧
    (∀ (s : CollaborationSession) (pid : String), alget st.sessions sessionId = some s →
      connsOf (handleDisconnection st ws sessionId pid).1 sessionId
        = some (s.connections.filter (fun c => c.sid != ws.sid))) := by
  refine ⟨?_, rfl, rfl, fun t => rfl, ?_⟩
  · intro fr x
    exact ⟨(onMessage_preserves_shape cfg st ws sessionId fr now x).1,
           (onMessage_preserves_shape cfg st ws sessionId fr now x).2.1,
           fun a b r => onMessage_no_close cfg st ws sessionId fr now a b r⟩
  · intro s pid hs
    unfold handleDisconnection connsOf
    rw [hs]
    dsimp only
    rw [alget_alset_self]
    rfl

/-- Witness for C8 at concrete inputs: a malformed frame on the demo session
leaves it untouched, and disconnecting removes exactly the closing socket. -/
theorem c8_message_error_isolation_witness :
    (onSocketMessage defaultConfig demoS1 sockA demoSid Frame.malformed 5
      = (demoS1, [Effect.logError "Failed to parse WebSocket message"])) ∧
    connsOf (handleDisconnection demoS1 sockA demoSid "pA").1 demoSid
      = some (demoS1Session.connections.filter (fun c => c.sid != sockA.sid)) :=
  ⟨(c8_message_error_isolation defaultConfig demoS1 sockA demoSid 5).2.1,
   (c8_message_error_isolation defaultConfig demoS1 sockA demoSid 5).2.2.2.2
     demoS1Session "pA" (by decide)⟩

/-- C10: the message relay never writes lastActivity — any trace of incoming
frames leaves every lastActivity stamp unchanged, and so does disconnection —
hence a session whose last accept lies more than sessionTTL in the past meets
the sweep condition and is evicted by the next tick regardless of how much
message traffic arrived in between. -/
theorem c10_last_activity (cfg : CollaborationConfig) :
    (∀ (st : ManagerState) (ws : Socket) (sessionId : String) (fr : Frame) (now : Nat)
        (x : String),
      activityOf (onSocketMessage cfg st ws sessionId fr now).1 x = activityOf st x) ∧
    (∀ (st : ManagerState) (ws : Socket) (sessionId participantId x : String),
      activityOf (handleDisconnection st ws sessionId participantId).1 x
        = activityOf st x) ∧
    (∀ (st : ManagerState) (trace : List (Socket × String × Frame × Nat))
        (sessionId : String) (la now : Nat),
      activityOf st sessionId = some la → cfg.sessionTTL * 1000 < now - la →
      alget (performPeriodicCleanup cfg (applyMessageTrace cfg st trace) now).1.sessions
        sessionId = none) := by
  refine ⟨?_, ?_, ?_⟩
  · intro st ws sid fr now x
    exact (onMessage_preserves_shape cfg st ws sid fr now x).2.2
  · intro st ws sid pid x
    unfold handleDisconnection activityOf
    cases hg : alget st.sessions sid with
    | none => rfl
    | some s =>
        dsimp only
        by_cases hx : x = sid
        · subst hx
          rw [alget_alset_self, hg]
          rfl
        · rw [alget_alset_ne _ _ _ _ hx]
  · intro st trace sid la now ha hidle
    have h2 : activityOf (applyMessageTrace cfg st trace) sid = some la :=
      (applyMessageTrace_activity cfg trace st sid).trans ha
    exact sweep_removes_idle h2 hidle

/-- Witness for C10: the demo session joined at instant 1, keeps receiving
updates, and the sweep at instant 2000000 still evicts it. -/
theorem c10_last_activity_witness :
    alget (performPeriodicCleanup defaultConfig
        (applyMessageTrace defaultConfig demoS1
          [(sockA, demoSid, syncUpdateFrame {9}, 5)]) 2000000).1.sessions demoSid
      = none :=
  (c10_last_activity defaultConfig).2.2 demoS1
    [(sockA, demoSid, syncUpdateFrame {9}, 5)] demoSid 1 2000000
    (by decide) (by decide)

/-- C5: in every reachable state every registered session respects the
configured participant cap, and an accept finding the session at or above the
cap is closed Session full with the whole state unchanged — neither the socket
nor the participant id is added and the attached connections stay. -/
theorem c5_participant_cap (cfg : CollaborationConfig) :
    (∀ st : ManagerState, Reachable cfg st →
      ∀ (sid : String) (s : CollaborationSession), alget st.sessions sid = some s →
        s.participants.length ≤ cfg.maxParticipants) ∧
    (∀ (st : ManagerState) (ws : Socket) (sid pid : String) (now : Nat)
        (metadata : SessionMetadata) (s : CollaborationSession),
      st.store.getMeta now sid = some metadata → ¬ metadata.expiresAt < now →
      alget st.sessions sid = some s →
      cfg.maxParticipants ≤ s.participants.length →
      handleConnection cfg st ws sid pid now
        = (st, [Effect.storeRead (sessionKey sid),
                Effect.closeSock ws.sid 1008 "Session full"])) := by
  constructor
  · intro st hr sid s hs
    exact reachable_cap hr (sid, s) (alget_mem hs)
  · intro st ws sid pid now metadata s hm hexp hs hfull
    simp [handleConnection, hm, hexp, hs, hfull]

/-- Witness for C5 under the cap-one configuration: after pA joined, the
session is at the cap and a second accept is rejected Session full with the
state unchanged. -/
theorem c5_participant_cap_witness :
    demoS1Session.participants.length ≤ capOneConfig.maxParticipants ∧
    handleConnection capOneConfig demoCapState sockB demoSid "pB" 2
      = (demoCapState, [Effect.storeRead (sessionKey demoSid),
          Effect.closeSock sockB.sid 1008 "Session full"]) := by
  have hr : Reachable capOneConfig demoCapState :=
    Reachable.step (Event.accept sockA demoSid "pA" 1) (Reachable.init demoStore)
  exact ⟨(c5_participant_cap capOneConfig).1 demoCapState hr demoSid demoS1Session
           (by decide),
         (c5_participant_cap capOneConfig).2 demoCapState sockB demoSid "pB" 2
           demoMeta demoS1Session (by decide) (by decide) (by decide) (by decide)⟩

/-- C9: update application through the relay is idempotent and commutative on
the session document — relaying the same encoded update twice leaves the same
document as relaying it once, two updates from any sockets commute, and any
two arrival orders of a finite batch of updates converge to the same
document. -/
theorem c9_merge_convergence (cfg : CollaborationConfig) :
    (∀ (st : ManagerState) (ws : Socket) (sid : String) (ops : OpSet) (n1 n2 : Nat)
        (x : String),
      docOf (onSocketMessage cfg (onSocketMessage cfg st ws sid (syncUpdateFrame ops) n1).1
          ws sid (syncUpdateFrame ops) n2).1 x
        = docOf (onSocketMessage cfg st ws sid (syncUpdateFrame ops) n1).1 x) ∧
    (∀ (st : ManagerState) (w1 w2 : Socket) (sid : String) (u1 u2 : OpSet) (n1 n2 : Nat)
        (x : String),
      docOf (onSocketMessage cfg (onSocketMessage cfg st w1 sid (syncUpdateFrame u1) n1).1
          w2 sid (syncUpdateFrame u2) n2).1 x
        = docOf (onSocketMessage cfg (onSocketMessage cfg st w2 sid (syncUpdateFrame u2) n1).1
          w1 sid (syncUpdateFrame u1) n2).1 x) ∧
    (∀ (st : ManagerState) (sid : String) (now : Nat) (l1 l2 : List (Socket × OpSet))
        (x : String), l1.Perm l2 →
      docOf (relayUpdates cfg st sid now l1) x
        = docOf (relayUpdates cfg st sid now l2) x) := by
  refine ⟨?_, ?_, ?_⟩
  · intro st ws sid ops n1 n2 x
    by_cases hx : x = sid
    · subst hx
      simp only [docOf_relayStep_self]
      cases docOf st x with
      | none => rfl
      | some d =>
          show some (d ∪ ops ∪ ops) = some (d ∪ ops)
          rw [Finset.union_assoc, Finset.union_self]
    · simp only [docOf_relayStep_ne _ _ _ _ _ _ _ hx]
  · intro st w1 w2 sid u1 u2 n1 n2 x
    by_cases hx : x = sid
    · subst hx
      simp only [docOf_relayStep_self]
      cases docOf st x with
      | none => rfl
      | some d =>
          show some (d ∪ u1 ∪ u2) = some (d ∪ u2 ∪ u1)
          rw [Finset.union_right_comm]
    · simp only [docOf_relayStep_ne _ _ _ _ _ _ _ hx]
  · intro st sid now l1 l2 x h
    rw [relayUpdates_docOf, relayUpdates_docOf]
    by_cases hx : x = sid
    · simp only [if_pos hx]
      exact foldl_map_union_perm h _
    · simp [hx]

/-- Witness for C9: the two orders of the updates carrying operations 1 and 2,
relayed from sockA and sockB, leave the demo session with the same document. -/
theorem c9_merge_convergence_witness :
    docOf (relayUpdates defaultConfig demoS2 demoSid 7 [(sockA, {1}), (sockB, {2})]) demoSid
      = docOf (relayUpdates defaultConfig demoS2 demoSid 7 [(sockB, {2}), (sockA, {1})])
          demoSid :=
  (c9_merge_convergence defaultConfig).2.2 demoS2 demoSid 7
    [(sockA, {1}), (sockB, {2})] [(sockB, {2}), (sockA, {1})] demoSid
    (List.Perm.swap (sockB, {2}) (sockA, {1}) [])

/-- C1 counterexample: when the grace timer fires on the drained demo session,
the durable metadata key (alive until instant 1000000000) and the snapshot key
are deleted rather than left to their own TTL, and the subsequent reconnect is
closed Session not found or expired instead of rehydrating from the snapshot. -/
theorem c1_counterexample :
    (alget demoD.store.sessionMeta demoSid).map Entry.expireAt = some 1000000000 ∧
    (alget demoD.store.docSnapshot demoSid).isSome = true ∧
    alget demoG.store.sessionMeta demoSid = none ∧
    alget demoG.store.docSnapshot demoSid = none ∧
    (wsRoute defaultConfig demoG sockB demoSid "pB" 10).2
      = [Effect.storeRead (sessionKey demoSid),
         Effect.closeSock sockB.sid 1008 "Session not found or expired"] := by
  decide

/-- C1 amended: on disconnect the socket, the participant, and the presence
key are removed, and the 30 second grace timer is scheduled exactly when the
connection set drained; a timer firing while connections remain does nothing;
a timer firing on a drained session tears down the in-memory entry AND deletes
the durable metadata, snapshot, and presence keys rather than leaving them to
their own TTL; a reconnect before the timer fires reuses the live replica
without constructing a fresh one; a reconnect after it fires is closed Session
not found or expired instead of rehydrating from the snapshot. -/
theorem c1_grace_teardown (cfg : CollaborationConfig) :
    (∀ (st : ManagerState) (ws : Socket) (sid pid : String) (s : CollaborationSession),
      alget st.sessions sid = some s →
      alget (handleDisconnection st ws sid pid).1.sessions sid
          = some { s with
              connections := s.connections.filter (fun c => c.sid != ws.sid),
              participants := s.participants.filter (fun p => p != pid) } ∧
      alget (handleDisconnection st ws sid pid).1.store.presence (sid, pid) = none ∧
      (handleDisconnection st ws sid pid).2.2
          = (if (s.connections.filter (fun c => c.sid != ws.sid)).isEmpty
             then some gracePeriodMs else none)) ∧
    (∀ (st : ManagerState) (sid : String) (s : CollaborationSession),
      alget st.sessions sid = some s → s.connections ≠ [] →
      graceTimerFire st sid = (st, [])) ∧
    (∀ (st : ManagerState) (sid : String) (s : CollaborationSession),
      alget st.sessions sid = some s → s.connections = [] →
      alget (graceTimerFire st sid).1.sessions sid = none ∧
      alget (graceTimerFire st sid).1.store.sessionMeta sid = none ∧
      alget (graceTimerFire st sid).1.store.docSnapshot sid = none ∧
      (∀ pid, alget (graceTimerFire st sid).1.store.presence (sid, pid) = none) ∧
      Effect.destroyReplica sid ∈ (graceTimerFire st sid).2) ∧
    (∀ (st : ManagerState) (ws : Socket) (sid pid : String) (now : Nat)
        (metadata : SessionMetadata) (s : CollaborationSession),
      st.store.getMeta now sid = some metadata → ¬ metadata.expiresAt < now →
      alget st.sessions sid = some s →
      s.participants.length < cfg.maxParticipants →
      docOf (handleConnection cfg st ws sid pid now).1 sid = some s.ydoc ∧
      (handleConnection cfg st ws sid pid now).2
        = Effect.storeRead (sessionKey sid)
            :: sendMessage ws (Message.syncStep1 (some (YUpdate.valid
                 (encodeStateAsUpdate s.ydoc))))) ∧
    (∀ (st : ManagerState) (ws : Socket) (sid pid : String) (now : Nat)
        (s : CollaborationSession),
      alget st.sessions sid = some s → s.connections = [] →
      handleConnection cfg (graceTimerFire st sid).1 ws sid pid now
        = ((graceTimerFire st sid).1,
           [Effect.storeRead (sessionKey sid),
            Effect.closeSock ws.sid 1008 "Session not found or expired"])) := by
  refine ⟨?_, ?_, ?_, ?_, ?_⟩
  · intro st ws sid pid s hs
    unfold handleDisconnection
    rw [hs]
    dsimp only
    exact ⟨alget_alset_self _ _ _, alget_alremove_self _ _, rfl⟩
  · intro st sid s hs hne
    unfold graceTimerFire
    rw [hs]
    dsimp only
    rw [if_neg (by simp [hne])]
  · intro st sid s hs hempty
    have hfire : graceTimerFire st sid = cleanupSession st sid := by
      unfold graceTimerFire
      rw [hs]
      dsimp only
      rw [if_pos (by simp [hempty])]
    rw [hfire]
    refine ⟨cleanup_sessions_self st sid, cleanup_meta_self st sid,
      cleanup_doc_self st sid, fun pid => cleanup_presence_self st sid pid, ?_⟩
    rw [cleanup_effects_of_entry hs]
    simp [hempty]
  · intro st ws sid pid now metadata s hm hexp hs hlt
    have hfull : ¬ cfg.maxParticipants ≤ s.participants.length := by omega
    constructor
    · unfold handleConnection docOf
      rw [hm]
      dsimp only
      rw [if_neg hexp, hs]
      dsimp only
      rw [if_neg hfull]
      dsimp only
      rw [alget_alset_self]
      rfl
    · unfold handleConnection
      rw [hm]
      dsimp only
      rw [if_neg hexp, hs]
      dsimp only
      rw [if_neg hfull]
      rfl
  · intro st ws sid pid now s hs hempty
    have hfire : (graceTimerFire st sid).1 = (cleanupSession st sid).1 := by
      unfold graceTimerFire
      rw [hs]
      dsimp only
      rw [if_pos (by simp [hempty])]
    have hm : ((graceTimerFire st sid).1).store.getMeta now sid = none := by
      rw [hfire]
      unfold Store.getMeta
      rw [cleanup_meta_self]
    unfold handleConnection
    rw [hm]

/-- Witness for C1 at the demo session: disconnect, a timer firing while a
connection remains, the teardown on the drained session, the reconnect before
the timer, and the reconnect after it, all at concrete inputs. -/
theorem c1_grace_teardown_witness :
    (alget (handleDisconnection demoT3 sockA demoSid "pA").1.sessions demoSid
        = some { demoT3Session with
            connections := demoT3Session.connections.filter (fun c => c.sid != sockA.sid),
            participants := demoT3Session.participants.filter (fun p => p != "pA") } ∧
      alget (handleDisconnection demoT3 sockA demoSid "pA").1.store.presence
        (demoSid, "pA") = none ∧
      (handleDisconnection demoT3 sockA demoSid "pA").2.2
        = (if (demoT3Session.connections.filter (fun c => c.sid != sockA.sid)).isEmpty
           then some gracePeriodMs else none)) ∧
    graceTimerFire demoT3 demoSid = (demoT3, []) ∧
    (alget (graceTimerFire demoD demoSid).1.sessions demoSid = none ∧
      alget (graceTimerFire demoD demoSid).1.store.sessionMeta demoSid = none ∧
      Effect.destroyReplica demoSid ∈ (graceTimerFire demoD demoSid).2) ∧
    (docOf (handleConnection defaultConfig demoD sockB demoSid "pB" 5).1 demoSid
        = some demoDSession.ydoc ∧
      (handleConnection defaultConfig demoD sockB demoSid "pB" 5).2
        = Effect.storeRead (sessionKey demoSid)
            :: sendMessage sockB (Message.syncStep1 (some (YUpdate.valid
                 (encodeStateAsUpdate demoDSession.ydoc))))) ∧
    handleConnection defaultConfig (graceTimerFire demoD demoSid).1 sockB demoSid "pB" 6
      = ((graceTimerFire demoD demoSid).1,
         [Effect.storeRead (sessionKey demoSid),
          Effect.closeSock sockB.sid 1008 "Session not found or expired"]) := by
  refine ⟨(c1_grace_teardown defaultConfig).1 demoT3 sockA demoSid "pA" demoT3Session
      (by decide),
    (c1_grace_teardown defaultConfig).2.1 demoT3 demoSid demoT3Session
      (by decide) (by decide), ?_, ?_, ?_⟩
  · have h := (c1_grace_teardown defaultConfig).2.2.1 demoD demoSid demoDSession
      (by decide) (by decide)
    exact ⟨h.1, h.2.1, h.2.2.2.2⟩
  · exact (c1_grace_teardown defaultConfig).2.2.2.1 demoD sockB demoSid "pB" 5
      demoMeta demoDSession (by decide) (by decide) (by decide) (by decide)
  · exact (c1_grace_teardown defaultConfig).2.2.2.2 demoD sockB demoSid "pB" 6
      demoDSession (by decide) (by decide)

/-- C7 counterexample: the sweep is not the only path that proactively deletes
durable state ahead of its own TTL — the non-sweep graceFire transition on the
drained demo session removes the metadata key although it is alive until
instant 1000000000. -/
theorem c7_counterexample :
    (alget demoD.store.sessionMeta demoSid).map Entry.expireAt = some 1000000000 ∧
    alget (applyEvent defaultConfig demoD (Event.graceFire demoSid)).store.sessionMeta
      demoSid = none := by
  decide

/-- C7 amended: each sweep tick fully evicts every session idle longer than
sessionTTL — registry entry dropped, open sockets closed Session ended,
replica destroyed, durable metadata, snapshot, and all presence keys deleted —
and leaves sessions inside the idle window and their durable keys untouched;
however the sweep is not the only proactive deletion path: the grace-timer
cleanup deletes the same durable keys when it fires on a drained session. -/
theorem c7_sweep_eviction (cfg : CollaborationConfig) :
    (∀ (st : ManagerState) (now : Nat) (sid : String) (s : CollaborationSession),
      alget st.sessions sid = some s →
      cfg.sessionTTL * 1000 < now - s.lastActivity →
      alget (performPeriodicCleanup cfg st now).1.sessions sid = none ∧
      alget (performPeriodicCleanup cfg st now).1.store.sessionMeta sid = none ∧
      alget (performPeriodicCleanup cfg st now).1.store.docSnapshot sid = none ∧
      (∀ pid, alget (performPeriodicCleanup cfg st now).1.store.presence (sid, pid)
        = none) ∧
      Effect.destroyReplica sid ∈ (performPeriodicCleanup cfg st now).2 ∧
      (∀ c ∈ s.connections, c.readyState = WS_OPEN →
        Effect.closeSock c.sid 1000 "Session ended"
          ∈ (performPeriodicCleanup cfg st now).2)) ∧
    (∀ (st : ManagerState) (now : Nat) (sid : String) (s : CollaborationSession),
      KeysNodup st →
      alget st.sessions sid = some s →
      ¬ cfg.sessionTTL * 1000 < now - s.lastActivity →
      alget (performPeriodicCleanup cfg st now).1.sessions sid = some s ∧
      alget (performPeriodicCleanup cfg st now).1.store.sessionMeta sid
        = alget st.store.sessionMeta sid ∧
      alget (performPeriodicCleanup cfg st now).1.store.docSnapshot sid
        = alget st.store.docSnapshot sid ∧
      (∀ pid, alget (performPeriodicCleanup cfg st now).1.store.presence (sid, pid)
        = alget st.store.presence (sid, pid))) ∧
    (∀ (st : ManagerState) (sid : String) (s : CollaborationSession),
      alget st.sessions sid = some s → s.connections = [] →
      alget (graceTimerFire st sid).1.store.sessionMeta sid = none ∧
      alget (graceTimerFire st sid).1.store.docSnapshot sid = none) := by
  refine ⟨?_, ?_, ?_⟩
  · intro st now sid s hs hidle
    have hmem : sid ∈ idleSessionIds cfg st now := by
      unfold idleSessionIds
      apply List.mem_map.mpr
      refine ⟨(sid, s), List.mem_filter.mpr ⟨alget_mem hs, ?_⟩, rfl⟩
      simpa using hidle
    obtain ⟨g1, g2, g3, g4⟩ :=
      foldl_cleanup_mem_gone (idleSessionIds cfg st now) (st, []) sid hmem
    obtain ⟨e1, e2⟩ :=
      foldl_cleanup_effects (idleSessionIds cfg st now) (st, []) sid s hmem hs
    exact ⟨g1, g2, g3, g4, e1, e2⟩
  · intro st now sid s hd hs hn
    have hne : ∀ i ∈ idleSessionIds cfg st now, sid ≠ i := by
      intro i hi he
      subst he
      unfold idleSessionIds at hi
      obtain ⟨e, hef, hfst⟩ := List.mem_map.mp hi
      have hem := List.mem_filter.mp hef
      have he2 : e = (sid, s) := by
        rcases e with ⟨k, v⟩
        have hk : k = sid := hfst
        subst hk
        have := alget_of_nodup_mem hd hem.1
        rw [hs] at this
        simp at this
        rw [this]
      rw [he2] at hem
      have := hem.2
      simp at this
      exact hn this
    obtain ⟨g1, g2, g3, g4⟩ :=
      foldl_cleanup_ne (idleSessionIds cfg st now) (st, []) sid hne
    exact ⟨g1.trans hs, g2, g3, g4⟩
  · intro st sid s hs hempty
    have hfire : (graceTimerFire st sid).1 = (cleanupSession st sid).1 := by
      unfold graceTimerFire
      rw [hs]
      dsimp only
      rw [if_pos (by simp [hempty])]
    rw [hfire]
    exact ⟨cleanup_meta_self st sid, cleanup_doc_self st sid⟩

/-- Witness for C7: the sweep at instant 2000000 evicts the idle demo session
and deletes its keys; the sweep at instant 4 leaves it and its keys untouched;
the grace timer on the drained session deletes the durable keys. -/
theorem c7_sweep_eviction_witness :
    (alget (performPeriodicCleanup defaultConfig demoT3 2000000).1.sessions demoSid
        = none ∧
      alget (performPeriodicCleanup defaultConfig demoT3 2000000).1.store.sessionMeta
        demoSid = none ∧
      Effect.destroyReplica demoSid ∈ (performPeriodicCleanup defaultConfig demoT3 2000000).2 ∧
      Effect.closeSock sockA.sid 1000 "Session ended"
        ∈ (performPeriodicCleanup defaultConfig demoT3 2000000).2) ∧
    (alget (performPeriodicCleanup defaultConfig demoT3 4).1.sessions demoSid
        = some demoT3Session ∧
      alget (performPeriodicCleanup defaultConfig demoT3 4).1.store.sessionMeta demoSid
        = alget demoT3.store.sessionMeta demoSid) ∧
    (alget (graceTimerFire demoD demoSid).1.store.sessionMeta demoSid = none ∧
      alget (graceTimerFire demoD demoSid).1.store.docSnapshot demoSid = none) := by
  refine ⟨?_, ?_, ?_⟩
  · have h := (c7_sweep_eviction defaultConfig).1 demoT3 2000000 demoSid demoT3Session
      (by decide) (by decide)
    exact ⟨h.1, h.2.1, h.2.2.2.2.1, h.2.2.2.2.2 sockA (by decide) rfl⟩
  · have h := (c7_sweep_eviction defaultConfig).2.1 demoT3 4 demoSid demoT3Session
      (by unfold KeysNodup; decide) (by decide) (by decide)
    exact ⟨h.1, h.2.1⟩
  · exact (c7_sweep_eviction defaultConfig).2.2 demoD demoSid demoDSession
      (by decide) (by decide)

end ZenNote

